import Mathlib

/-!
Shallow embedding of the `newtype!` macro expansion from `src/lib.rs` of the
`new_type` crate. The macro, applied to a name `N`, defines
`pub struct N<T>(pub T)` and forwards conversion, comparison, arithmetic and
bitwise traits to the wrapped value. We embed one such generated type as the
structure `Newtype` below; a second generated type (`Outer`) is declared
separately to study nesting, since the macro emits one structurally identical
type per requested name.

Rust trait bounds become Lean typeclass binders (`Add T` for
`T: std::ops::Add<Output = T>`, and so on). Rust's compound-assignment traits
(`AddAssign`, ...) are independent of the corresponding binary traits, so each
is embedded as an explicit state-update function `T → T → T` giving the new
value of the mutated place; the wrapper's `x op= y` mutation is embedded as a
function from the old wrapper (and right-hand side) to the new wrapper.
`PartialEq` is embedded as `BEq` (an arbitrary Bool-valued binary function, as
Rust's `PartialEq` contract does not require reflexivity), `PartialOrd` as an
arbitrary function into `Option Ordering`, `Ord` as a function into `Ordering`,
and `Default` as `Inhabited`.
-/

/-- Embeds `pub struct $newtype<T>(pub T)` (src/lib.rs line 135): a single
public field holding the inner value. `val` plays the role of `.0`. -/
structure Newtype (T : Type) where
  val : T
deriving DecidableEq

/-- Embeds `impl<T> From<T> for $newtype<T>` (src/lib.rs lines 149-153):
`fn from(other: T) -> Self { Self(other) }`. Named `fromT` because `from` is a
reserved word in Lean. -/
def Newtype.fromT {T : Type} (other : T) : Newtype T :=
  Newtype.mk other

/-- Embeds `impl<T> Deref for $newtype<T>` (src/lib.rs lines 155-161):
`fn deref(&self) -> &T { &self.0 }`; the reference read is the field value. -/
def Newtype.deref {T : Type} (s : Newtype T) : T :=
  s.val

/-- Embeds the read through `impl<T> DerefMut for $newtype<T>`
(src/lib.rs lines 163-167): `deref_mut` returns `&mut self.0`, which points at
the contained field. -/
def Newtype.derefMutGet {T : Type} (s : Newtype T) : T :=
  s.val

/-- Embeds a write through the mutable reference returned by `deref_mut`
(src/lib.rs lines 163-167): assigning `v` through `&mut self.0` replaces the
contained field. -/
def Newtype.derefMutSet {T : Type} (s : Newtype T) (v : T) : Newtype T :=
  { s with val := v }

/-- Embeds `impl<T> AsRef<T> for $newtype<T>` (src/lib.rs lines 169-173):
`fn as_ref(&self) -> &T { &self.0 }`. -/
def Newtype.asRef {T : Type} (s : Newtype T) : T :=
  s.val

/-- Embeds the read through `impl<T> AsMut<T> for $newtype<T>`
(src/lib.rs lines 175-179): `fn as_mut(&mut self) -> &mut T { &mut self.0 }`. -/
def Newtype.asMutGet {T : Type} (s : Newtype T) : T :=
  s.val

/-- Embeds a write through the mutable reference returned by `as_mut`
(src/lib.rs lines 175-179). -/
def Newtype.asMutSet {T : Type} (s : Newtype T) (v : T) : Newtype T :=
  { s with val := v }

/-- Embeds `impl<T: PartialEq> PartialEq for $newtype<T>`
(src/lib.rs lines 193-197): `fn eq(&self, other: &Self) -> bool
{ self.0 == other.0 }`. -/
instance instBEqNewtype {T : Type} [BEq T] : BEq (Newtype T) :=
  ⟨fun a b => a.val == b.val⟩

/-- Embeds `impl<T: PartialOrd> PartialOrd for $newtype<T>`
(src/lib.rs lines 201-205): `fn partial_cmp(&self, other: &Self)
-> Option<Ordering> { self.0.partial_cmp(&other.0) }`. The inner type's
`partial_cmp` is the function argument `pc`. -/
def Newtype.pcmp {T : Type} (pc : T → T → Option Ordering)
    (a b : Newtype T) : Option Ordering :=
  pc a.val b.val

/-- Embeds `impl<T: Ord> Ord for $newtype<T>` (src/lib.rs lines 207-211):
`fn cmp(&self, other: &Self) -> Ordering { self.0.cmp(&other.0) }`. The inner
type's `cmp` is the function argument `c`. -/
def Newtype.cmp {T : Type} (c : T → T → Ordering) (a b : Newtype T) : Ordering :=
  c a.val b.val

/-- Embeds `impl<T: Default> Default for $newtype<T>`
(src/lib.rs lines 143-147): `fn default() -> Self { Self(T::default()) }`. -/
instance instInhabitedNewtype {T : Type} [Inhabited T] : Inhabited (Newtype T) :=
  ⟨Newtype.mk default⟩

/-- Embeds `impl<T: Add<Output = T>> Add for $newtype<T>`
(src/lib.rs lines 223-229): `fn add(self, other: Self) -> Self
{ Self(self.0 + other.0) }`. -/
def Newtype.add {T : Type} [Add T] (s other : Newtype T) : Newtype T :=
  Newtype.mk (s.val + other.val)

instance instAddNewtype {T : Type} [Add T] : Add (Newtype T) :=
  ⟨Newtype.add⟩

/-- Embeds `impl<T: Sub<Output = T>> Sub for $newtype<T>`
(src/lib.rs lines 328-334). -/
def Newtype.sub {T : Type} [Sub T] (s other : Newtype T) : Newtype T :=
  Newtype.mk (s.val - other.val)

instance instSubNewtype {T : Type} [Sub T] : Sub (Newtype T) :=
  ⟨Newtype.sub⟩

/-- Embeds `impl<T: Mul<Output = T>> Mul for $newtype<T>`
(src/lib.rs lines 292-298). -/
def Newtype.mul {T : Type} [Mul T] (s rhs : Newtype T) : Newtype T :=
  Newtype.mk (s.val * rhs.val)

instance instMulNewtype {T : Type} [Mul T] : Mul (Newtype T) :=
  ⟨Newtype.mul⟩

/-- Embeds `impl<T: Div<Output = T>> Div for $newtype<T>`
(src/lib.rs lines 278-284). -/
def Newtype.div {T : Type} [Div T] (s rhs : Newtype T) : Newtype T :=
  Newtype.mk (s.val / rhs.val)

instance instDivNewtype {T : Type} [Div T] : Div (Newtype T) :=
  ⟨Newtype.div⟩

/-- Embeds `impl<T: Rem<Output = T>> Rem for $newtype<T>`
(src/lib.rs lines 314-320): `fn rem(self, modulus: Self) -> Self
{ Self(self.0 % modulus.0) }`. -/
def Newtype.rem {T : Type} [Mod T] (s modulus : Newtype T) : Newtype T :=
  Newtype.mk (s.val % modulus.val)

instance instModNewtype {T : Type} [Mod T] : Mod (Newtype T) :=
  ⟨Newtype.rem⟩

/-- Embeds `impl<T: BitAnd<Output = T>> BitAnd for $newtype<T>`
(src/lib.rs lines 237-242). -/
def Newtype.bitand {T : Type} [AndOp T] (s rhs : Newtype T) : Newtype T :=
  Newtype.mk (s.val &&& rhs.val)

instance instAndOpNewtype {T : Type} [AndOp T] : AndOp (Newtype T) :=
  ⟨Newtype.bitand⟩

/-- Embeds `impl<T: BitOr<Output = T>> BitOr for $newtype<T>`
(src/lib.rs lines 250-256). -/
def Newtype.bitor {T : Type} [OrOp T] (s rhs : Newtype T) : Newtype T :=
  Newtype.mk (s.val ||| rhs.val)

instance instOrOpNewtype {T : Type} [OrOp T] : OrOp (Newtype T) :=
  ⟨Newtype.bitor⟩

/-- Embeds `impl<T: BitXor<Output = T>> BitXor for $newtype<T>`
(src/lib.rs lines 264-270). -/
def Newtype.bitxor {T : Type} [Xor T] (s rhs : Newtype T) : Newtype T :=
  Newtype.mk (s.val ^^^ rhs.val)

instance instXorNewtype {T : Type} [Xor T] : Xor (Newtype T) :=
  ⟨Newtype.bitxor⟩

/-- Embeds `impl<T: Shl<Output = T>> Shl for $newtype<T>`
(src/lib.rs lines 350-356): the right-hand side is another wrapper of the same
type and the shift is forwarded to the inner values. -/
def Newtype.shl {T : Type} [ShiftLeft T] (s rhs : Newtype T) : Newtype T :=
  Newtype.mk (s.val <<< rhs.val)

instance instShiftLeftNewtype {T : Type} [ShiftLeft T] : ShiftLeft (Newtype T) :=
  ⟨Newtype.shl⟩

/-- Embeds `impl<T: Shr<Output = T>> Shr for $newtype<T>`
(src/lib.rs lines 364-370). -/
def Newtype.shr {T : Type} [ShiftRight T] (s rhs : Newtype T) : Newtype T :=
  Newtype.mk (s.val >>> rhs.val)

instance instShiftRightNewtype {T : Type} [ShiftRight T] : ShiftRight (Newtype T) :=
  ⟨Newtype.shr⟩

/-- Embeds `impl<T: Neg<Output = T>> Neg for $newtype<T>`
(src/lib.rs lines 342-348): `fn neg(self) -> Self { Self(-self.0) }`. -/
def Newtype.neg {T : Type} [Neg T] (s : Newtype T) : Newtype T :=
  Newtype.mk (-s.val)

instance instNegNewtype {T : Type} [Neg T] : Neg (Newtype T) :=
  ⟨Newtype.neg⟩

/-- Embeds `impl<T: Not<Output = T>> Not for $newtype<T>`
(src/lib.rs lines 306-312): `fn not(self) -> Self { Self(!self.0) }`. Rust's
logical complement `!` on values corresponds to Lean's `Complement`. -/
def Newtype.not {T : Type} [Complement T] (s : Newtype T) : Newtype T :=
  Newtype.mk (~~~s.val)

instance instComplementNewtype {T : Type} [Complement T] : Complement (Newtype T) :=
  ⟨Newtype.not⟩

/-- Embeds `impl<T: AddAssign> AddAssign for $newtype<T>`
(src/lib.rs lines 231-235): `fn add_assign(&mut self, other: Self)
{ self.0 += other.0; }`. The inner type's `add_assign` is the state-update
function `f`; the wrapper's mutation replaces `self.0` by
`f self.0 other.0`. -/
def Newtype.addAssign {T : Type} (f : T → T → T) (s other : Newtype T) : Newtype T :=
  { s with val := f s.val other.val }

/-- Embeds `impl<T: SubAssign> SubAssign for $newtype<T>`
(src/lib.rs lines 336-340). -/
def Newtype.subAssign {T : Type} (f : T → T → T) (s other : Newtype T) : Newtype T :=
  { s with val := f s.val other.val }

/-- Embeds `impl<T: MulAssign> MulAssign for $newtype<T>`
(src/lib.rs lines 300-304). -/
def Newtype.mulAssign {T : Type} (f : T → T → T) (s rhs : Newtype T) : Newtype T :=
  { s with val := f s.val rhs.val }

/-- Embeds `impl<T: DivAssign> DivAssign for $newtype<T>`
(src/lib.rs lines 286-290). -/
def Newtype.divAssign {T : Type} (f : T → T → T) (s rhs : Newtype T) : Newtype T :=
  { s with val := f s.val rhs.val }

/-- Embeds `impl<T: RemAssign> RemAssign for $newtype<T>`
(src/lib.rs lines 322-326). -/
def Newtype.remAssign {T : Type} (f : T → T → T) (s modulus : Newtype T) : Newtype T :=
  { s with val := f s.val modulus.val }

/-- Embeds `impl<T: BitAndAssign + BitAnd<Output = T>> BitAndAssign for
$newtype<T>` (src/lib.rs lines 244-248). The source carries an extra
`BitAnd` bound here (mirrored by the unused `AndOp T` binder), but the body
delegates directly: `self.0 &= rhs.0`. -/
def Newtype.bitandAssign {T : Type} [AndOp T] (f : T → T → T)
    (s rhs : Newtype T) : Newtype T :=
  { s with val := f s.val rhs.val }

/-- Embeds `impl<T: BitOrAssign> BitOrAssign for $newtype<T>`
(src/lib.rs lines 258-262). -/
def Newtype.bitorAssign {T : Type} (f : T → T → T) (s rhs : Newtype T) : Newtype T :=
  { s with val := f s.val rhs.val }

/-- Embeds `impl<T: BitXorAssign> BitXorAssign for $newtype<T>`
(src/lib.rs lines 272-276). -/
def Newtype.bitxorAssign {T : Type} (f : T → T → T) (s rhs : Newtype T) : Newtype T :=
  { s with val := f s.val rhs.val }

/-- Embeds `impl<T: ShlAssign> ShlAssign for $newtype<T>`
(src/lib.rs lines 358-362). -/
def Newtype.shlAssign {T : Type} (f : T → T → T) (s rhs : Newtype T) : Newtype T :=
  { s with val := f s.val rhs.val }

/-- Embeds `impl<T: ShrAssign> ShrAssign for $newtype<T>`
(src/lib.rs lines 372-376). -/
def Newtype.shrAssign {T : Type} (f : T → T → T) (s rhs : Newtype T) : Newtype T :=
  { s with val := f s.val rhs.val }

/-- A second wrapper type generated by the same macro under a different name
(the macro accepts a comma-separated list of names and emits one structurally
identical struct per name, as in `newtype!(A, B)` of the `nested` test,
src/lib.rs lines 466-477). Used to study nesting of distinct wrapper types. -/
structure Outer (T : Type) where
  val : T
deriving DecidableEq

/-- The `Add` forward of the second generated type, identical in shape to
`Newtype.add` (src/lib.rs lines 223-229 instantiated at the second name). -/
def Outer.add {T : Type} [Add T] (s other : Outer T) : Outer T :=
  Outer.mk (s.val + other.val)

instance instAddOuter {T : Type} [Add T] : Add (Outer T) :=
  ⟨Outer.add⟩

/-- The type of `n`-fold nested wrappers over an innermost type `T`:
`Nest T 0 = T` and `Nest T (n+1) = Newtype (Nest T n)`. -/
def Nest (T : Type) : Nat → Type
  | 0 => T
  | n + 1 => Newtype (Nest T n)

/-- Wrapping a value of the innermost type at every nesting level. -/
def Nest.mkN {T : Type} : (n : Nat) → T → Nest T n
  | 0, x => x
  | n + 1, x => Newtype.mk (Nest.mkN n x)

/-- Addition on `n`-fold nested wrappers: each level uses the generated
forwarding `Add` of the wrapper, exactly as the Rust bounds resolve
(`Newtype<T>: Add` whenever `T: Add<Output = T>`). -/
def nestAddInst {T : Type} [inst : Add T] : (n : Nat) → Add (Nest T n)
  | 0 => inst
  | n + 1 => @instAddNewtype (Nest T n) (nestAddInst n)

instance instAddNest {T : Type} [Add T] {n : Nat} : Add (Nest T n) :=
  nestAddInst n

/-- Addition of `n`-fold nested wrappings of `a` and `b` is the `n`-fold
nested wrapping of `a + b`, by induction on the nesting depth. -/
theorem nest_add_mkN {T : Type} [Add T] : ∀ (n : Nat) (a b : T),
    Nest.mkN n a + Nest.mkN n b = Nest.mkN n (a + b)
  | 0, _, _ => rfl
  | n + 1, a, b => congrArg Newtype.mk (nest_add_mkN n a b)

/-- A Rust-representable inner type whose `PartialEq` is never true: Rust's
`PartialEq` contract requires only symmetry and transitivity, not
reflexivity, so `impl PartialEq for W { fn eq(&self, _: &W) -> bool
{ false } }` is a conforming implementation. -/
def neverEqBEq : BEq Unit :=
  ⟨fun _ _ => false⟩

/-- C1: for every forwarded binary operation (addition, subtraction,
multiplication, division, remainder, bitwise AND/OR/XOR, left shift, right
shift) and all inner values `a`, `b` for which the inner type supports the
operation, `Wrap(a) op Wrap(b) = Wrap(a op b)`; likewise for the unary
operations negation and logical complement, `op Wrap(a) = Wrap(op a)`. -/
theorem delegation_identity {T : Type} [Add T] [Sub T] [Mul T] [Div T] [Mod T]
    [AndOp T] [OrOp T] [Xor T] [ShiftLeft T] [ShiftRight T] [Neg T]
    [Complement T] (a b : T) :
    Newtype.mk a + Newtype.mk b = Newtype.mk (a + b) ∧
    Newtype.mk a - Newtype.mk b = Newtype.mk (a - b) ∧
    Newtype.mk a * Newtype.mk b = Newtype.mk (a * b) ∧
    Newtype.mk a / Newtype.mk b = Newtype.mk (a / b) ∧
    Newtype.mk a % Newtype.mk b = Newtype.mk (a % b) ∧
    (Newtype.mk a &&& Newtype.mk b) = Newtype.mk (a &&& b) ∧
    (Newtype.mk a ||| Newtype.mk b) = Newtype.mk (a ||| b) ∧
    (Newtype.mk a ^^^ Newtype.mk b) = Newtype.mk (a ^^^ b) ∧
    (Newtype.mk a <<< Newtype.mk b) = Newtype.mk (a <<< b) ∧
    (Newtype.mk a >>> Newtype.mk b) = Newtype.mk (a >>> b) ∧
    (-Newtype.mk a) = Newtype.mk (-a) ∧
    (~~~Newtype.mk a) = Newtype.mk (~~~a) :=
  ⟨rfl, rfl, rfl, rfl, rfl, rfl, rfl, rfl, rfl, rfl, rfl, rfl⟩

/-- C2, counterexample to the claim as stated: the compound-assignment traits
of the inner type are independent of its binary traits, and the generated
wrapper delegates each separately. For an inner type whose `AddAssign` is
multiplication (a conforming Rust implementation), `w += Wrap(3)` starting
from `w = Wrap(2)` leaves `Wrap(6)`, while `Wrap(2) + Wrap(3) = Wrap(5)`. -/
theorem compound_assign_claim_false :
    Newtype.addAssign (fun x y : Int => x * y) (Newtype.mk 2) (Newtype.mk 3) ≠
      Newtype.mk 2 + Newtype.mk 3 := by
  decide

/-- C2, amended: whenever the inner type's compound operators agree with its
binary operators (as they do for every standard numeric inner type), starting
from `w = Wrap(a)` and executing `w op= Wrap(b)` leaves `w` with the same
contained value as the non-mutating `Wrap(a) op Wrap(b)`, for every forwarded
compound operator. -/
theorem compound_assign_equiv {T : Type} [Add T] [Sub T] [Mul T] [Div T]
    [Mod T] [AndOp T] [OrOp T] [Xor T] [ShiftLeft T] [ShiftRight T]
    (fadd fsub fmul fdiv frem fand fior fxor fshl fshr : T → T → T)
    (hadd : ∀ x y, fadd x y = x + y) (hsub : ∀ x y, fsub x y = x - y)
    (hmul : ∀ x y, fmul x y = x * y) (hdiv : ∀ x y, fdiv x y = x / y)
    (hrem : ∀ x y, frem x y = x % y) (hand : ∀ x y, fand x y = x &&& y)
    (hior : ∀ x y, fior x y = x ||| y) (hxor : ∀ x y, fxor x y = x ^^^ y)
    (hshl : ∀ x y, fshl x y = x <<< y) (hshr : ∀ x y, fshr x y = x >>> y)
    (a b : T) :
    Newtype.addAssign fadd (Newtype.mk a) (Newtype.mk b) = Newtype.mk a + Newtype.mk b ∧
    Newtype.subAssign fsub (Newtype.mk a) (Newtype.mk b) = Newtype.mk a - Newtype.mk b ∧
    Newtype.mulAssign fmul (Newtype.mk a) (Newtype.mk b) = Newtype.mk a * Newtype.mk b ∧
    Newtype.divAssign fdiv (Newtype.mk a) (Newtype.mk b) = Newtype.mk a / Newtype.mk b ∧
    Newtype.remAssign frem (Newtype.mk a) (Newtype.mk b) = Newtype.mk a % Newtype.mk b ∧
    Newtype.bitandAssign fand (Newtype.mk a) (Newtype.mk b) = (Newtype.mk a &&& Newtype.mk b) ∧
    Newtype.bitorAssign fior (Newtype.mk a) (Newtype.mk b) = (Newtype.mk a ||| Newtype.mk b) ∧
    Newtype.bitxorAssign fxor (Newtype.mk a) (Newtype.mk b) = (Newtype.mk a ^^^ Newtype.mk b) ∧
    Newtype.shlAssign fshl (Newtype.mk a) (Newtype.mk b) = (Newtype.mk a <<< Newtype.mk b) ∧
    Newtype.shrAssign fshr (Newtype.mk a) (Newtype.mk b) = (Newtype.mk a >>> Newtype.mk b) :=
  ⟨congrArg Newtype.mk (hadd a b), congrArg Newtype.mk (hsub a b),
   congrArg Newtype.mk (hmul a b), congrArg Newtype.mk (hdiv a b),
   congrArg Newtype.mk (hrem a b), congrArg Newtype.mk (hand a b),
   congrArg Newtype.mk (hior a b), congrArg Newtype.mk (hxor a b),
   congrArg Newtype.mk (hshl a b), congrArg Newtype.mk (hshr a b)⟩

/-- C2, witness: the amended equivalence at the inner type `Nat` with its
standard compound operators, at `a = 12`, `b = 5`. -/
theorem compound_assign_equiv_witness :
    Newtype.addAssign (fun x y : Nat => x + y) (Newtype.mk 12) (Newtype.mk 5) = Newtype.mk 12 + Newtype.mk 5 ∧
    Newtype.subAssign (fun x y : Nat => x - y) (Newtype.mk 12) (Newtype.mk 5) = Newtype.mk 12 - Newtype.mk 5 ∧
    Newtype.mulAssign (fun x y : Nat => x * y) (Newtype.mk 12) (Newtype.mk 5) = Newtype.mk 12 * Newtype.mk 5 ∧
    Newtype.divAssign (fun x y : Nat => x / y) (Newtype.mk 12) (Newtype.mk 5) = Newtype.mk 12 / Newtype.mk 5 ∧
    Newtype.remAssign (fun x y : Nat => x % y) (Newtype.mk 12) (Newtype.mk 5) = Newtype.mk 12 % Newtype.mk 5 ∧
    Newtype.bitandAssign (fun x y : Nat => x &&& y) (Newtype.mk 12) (Newtype.mk 5) = (Newtype.mk 12 &&& Newtype.mk 5) ∧
    Newtype.bitorAssign (fun x y : Nat => x ||| y) (Newtype.mk 12) (Newtype.mk 5) = (Newtype.mk 12 ||| Newtype.mk 5) ∧
    Newtype.bitxorAssign (fun x y : Nat => x ^^^ y) (Newtype.mk 12) (Newtype.mk 5) = (Newtype.mk 12 ^^^ Newtype.mk 5) ∧
    Newtype.shlAssign (fun x y : Nat => x <<< y) (Newtype.mk 12) (Newtype.mk 5) = (Newtype.mk 12 <<< Newtype.mk 5) ∧
    Newtype.shrAssign (fun x y : Nat => x >>> y) (Newtype.mk 12) (Newtype.mk 5) = (Newtype.mk 12 >>> Newtype.mk 5) :=
  compound_assign_equiv (fun x y => x + y) (fun x y => x - y) (fun x y => x * y)
    (fun x y => x / y) (fun x y => x % y) (fun x y => x &&& y)
    (fun x y => x ||| y) (fun x y => x ^^^ y) (fun x y => x <<< y)
    (fun x y => x >>> y)
    (fun _ _ => rfl) (fun _ _ => rfl) (fun _ _ => rfl) (fun _ _ => rfl)
    (fun _ _ => rfl) (fun _ _ => rfl) (fun _ _ => rfl) (fun _ _ => rfl)
    (fun _ _ => rfl) (fun _ _ => rfl) 12 5

/-- C3, counterexample to the claim as stated: the generated `eq` delegates to
the inner type's `eq`, and Rust's `PartialEq` contract does not require
reflexivity, so for a conforming inner implementation whose `eq` is never true
(see `neverEqBEq`) the wrapper value `Wrap(())` does not compare equal to
itself. -/
theorem eq_refl_claim_false :
    @BEq.beq (Newtype Unit) (@instBEqNewtype Unit neverEqBEq)
      (Newtype.mk ()) (Newtype.mk ()) = false :=
  rfl

/-- C3, amended: `Wrap(x) == Wrap(y)` holds if and only if `x == y` does, for
every inner type supporting equality (no hypothesis on the inner equality);
and `Wrap(x) == Wrap(x)` whenever the inner equality is reflexive (as Rust's
strict-equality trait `Eq` demands, and every standard inner type satisfies) —
the reflexivity hypothesis guards only the reflexivity conjunct. -/
theorem eq_delegation {T : Type} [BEq T] (x y : T) :
    ((∀ z : T, (z == z) = true) → (Newtype.mk x == Newtype.mk x) = true) ∧
    ((Newtype.mk x == Newtype.mk y) = true ↔ (x == y) = true) :=
  ⟨fun hrefl => hrefl x, Iff.rfl⟩

/-- C3, witness: the amended statement at the inner type `Nat`, whose equality
is reflexive, at `x = 2`, `y = 3`, with the reflexivity hypothesis
discharged. -/
theorem eq_delegation_witness :
    ((Newtype.mk (2 : Nat) == Newtype.mk 2) = true) ∧
    ((Newtype.mk (2 : Nat) == Newtype.mk 3) = true ↔ ((2 : Nat) == 3) = true) :=
  ⟨(eq_delegation 2 2).1 (fun z => beq_self_eq_true z), (eq_delegation 2 3).2⟩

/-- C4: dereferencing a wrapper reads exactly the contained value; assigning
`v` through the mutable dereference leaves the wrapper equal to `Wrap(v)`; the
mutable dereference points at the same contained value as the immutable one;
and any method `m` of the inner type invoked through the dereference acts on
the contained value. -/
theorem transparent_access {T α : Type} (x v : T) (w : Newtype T) (m : T → α) :
    Newtype.deref (Newtype.mk x) = x ∧
    Newtype.derefMutSet (Newtype.mk x) v = Newtype.mk v ∧
    Newtype.derefMutGet w = Newtype.deref w ∧
    m (Newtype.deref w) = m w.val :=
  ⟨rfl, rfl, rfl, rfl⟩

/-- C5: converting a bare inner value into the wrapper via `From` and reading
back through the immutable accessor `as_ref` yields the original value, and
the same holds reading back through the mutable accessor `as_mut`. -/
theorem conversion_round_trip {T : Type} (x : T) :
    Newtype.asRef (Newtype.fromT x) = x ∧
    Newtype.asMutGet (Newtype.fromT x) = x :=
  ⟨rfl, rfl⟩

/-- C6: forwarded operations commute through nested wrappers. Concretely, for
the two distinct generated wrapper types `Outer` and `Newtype`,
`Outer(Inner(5)) + Outer(Inner(5)) = Outer(Inner(10))`; and in general, at any
nesting depth `n`, adding the `n`-fold wrappings of `a` and `b` equals the
`n`-fold wrapping of `a + b`. -/
theorem nesting_transparency {T : Type} [Add T] (n : Nat) (a b : T) :
    (Outer.mk (Newtype.mk (5 : Int)) + Outer.mk (Newtype.mk 5) =
      Outer.mk (Newtype.mk 10)) ∧
    Nest.mkN n a + Nest.mkN n b = Nest.mkN n (a + b) :=
  ⟨rfl, nest_add_mkN n a b⟩

/-- C7: every in-place compound operation of the wrapper replaces the
contained field by the inner type's own in-place operation applied to the two
contained values — the result is determined by the inner in-place operation
`f` alone, with no use of the inner binary operation and no duplication (copy)
capability of the inner type (none of the in-place embeddings even takes
one). -/
theorem direct_delegation_policy {T : Type} [AndOp T]
    (f1 f2 f3 f4 f5 f6 f7 f8 f9 f10 : T → T → T) (a b : T) :
    Newtype.addAssign f1 (Newtype.mk a) (Newtype.mk b) = Newtype.mk (f1 a b) ∧
    Newtype.subAssign f2 (Newtype.mk a) (Newtype.mk b) = Newtype.mk (f2 a b) ∧
    Newtype.mulAssign f3 (Newtype.mk a) (Newtype.mk b) = Newtype.mk (f3 a b) ∧
    Newtype.divAssign f4 (Newtype.mk a) (Newtype.mk b) = Newtype.mk (f4 a b) ∧
    Newtype.remAssign f5 (Newtype.mk a) (Newtype.mk b) = Newtype.mk (f5 a b) ∧
    Newtype.bitandAssign f6 (Newtype.mk a) (Newtype.mk b) = Newtype.mk (f6 a b) ∧
    Newtype.bitorAssign f7 (Newtype.mk a) (Newtype.mk b) = Newtype.mk (f7 a b) ∧
    Newtype.bitxorAssign f8 (Newtype.mk a) (Newtype.mk b) = Newtype.mk (f8 a b) ∧
    Newtype.shlAssign f9 (Newtype.mk a) (Newtype.mk b) = Newtype.mk (f9 a b) ∧
    Newtype.shrAssign f10 (Newtype.mk a) (Newtype.mk b) = Newtype.mk (f10 a b) :=
  ⟨rfl, rfl, rfl, rfl, rfl, rfl, rfl, rfl, rfl, rfl⟩

/-- C8: the wrapper's partial comparison of `Wrap(x)` and `Wrap(y)` equals the
inner partial comparison of `x` and `y` (including the incomparable case,
since `pc` may return `none`), and the wrapper's total comparison equals the
inner total comparison. -/
theorem ord_delegation {T : Type} (pc : T → T → Option Ordering)
    (c : T → T → Ordering) (x y : T) :
    Newtype.pcmp pc (Newtype.mk x) (Newtype.mk y) = pc x y ∧
    Newtype.cmp c (Newtype.mk x) (Newtype.mk y) = c x y :=
  ⟨rfl, rfl⟩

/-- C9: for every inner type with a default value, the wrapper's default is
exactly the wrapping of the inner default: `Wrap::default() = Wrap(T::default())`
(once the type parameter `T` is resolved). -/
theorem default_forwarding {T : Type} [Inhabited T] :
    (default : Newtype T) = Newtype.mk (default : T) :=
  rfl

/-- C10: the `From` conversion into the wrapper exists for every inner type
without any constraint and always adds exactly one wrapping layer:
`Wrap::from(t) = Wrap(t)` for every `t`, and in particular when `t` is itself
a wrapper value the result is the doubly wrapped value — conversion never
collapses existing nesting. -/
theorem from_adds_one_layer {T α : Type} (t : T) (x : α) :
    Newtype.fromT t = Newtype.mk t ∧
    Newtype.fromT (Newtype.mk x) = Newtype.mk (Newtype.mk x) :=
  ⟨rfl, rfl⟩
